import Mathlib

/-!
Shallow embedding of `src/bedoner/lang/juman/__init__.py` (the Juman
tokenizer adapter of the camphr/bedoner repository), and proofs of the
spec claims about it.

The Python module is glue code between the external `pyknp.Juman`
morphological analyzer and spaCy's `Doc`/`Token` data model.  We embed:

* `Morpheme` — the analyzer's per-unit output object (fields `midasi`,
  `hinsi`, `bunrui`, `genkei`, `fstring`); `genkei` is modelled as
  `Option String` so that both an absent dictionary form (`None`) and an
  empty one (`""`) are representable, matching Python's truthiness test.
* `ShortUnitWord` — the namedtuple of line 14.
* `SToken` / `Doc` — the slice of spaCy's token/document model the
  adapter touches: token text, the trailing-space flag, `lemma_`,
  `tag_`, and the custom extension slot keyed by `KEY_FSTRING`.
* `Tokenizer` — the adapter: an analyzer function (standing for
  `self.tokenizer.analysis(text).mrph_list()`) plus the optional
  preprocessor; `Tokenizer.call` embeds `Tokenizer.__call__` and
  `Tokenizer.detailed_tokens` embeds the method of the same name.
* `TokenizerE` — the same pipeline with explicit `Except` propagation,
  used for the error-handling claim: Python exceptions raised by the
  preprocessor, the analyzer or the `Juman` constructor are modelled as
  `Except.error` values that the adapter simply passes through.
* An explicit extension registry for `Token.set_extension` (line 38)
  and the `pickle_japanese` hook (lines 95-96).
-/

namespace Bedoner

/-- One morphological unit as reported by the external analyzer
(`pyknp.Morpheme`).  `midasi` is the surface form, `hinsi` the major
part-of-speech category, `bunrui` the minor category, `genkei` the
optional dictionary form and `fstring` the raw per-unit annotation
string.  `genkei : Option String` lets us model both an absent
dictionary form (`none`, Python `None`) and an empty one
(`some ""`). -/
structure Morpheme where
  midasi : String
  hinsi : String
  bunrui : String
  genkei : Option String
  fstring : String
deriving DecidableEq, Repr

/-- Embedding of line 14:
`ShortUnitWord = namedtuple("ShortUnitWord", ["surface", "lemma", "pos", "fstring"])`. -/
structure ShortUnitWord where
  surface : String
  lemma_ : String
  pos : String
  fstring : String
deriving DecidableEq, Repr

/-- Python's `x or y` on an optional string: `None` and the empty
string are falsy, anything else is returned unchanged.  Used for
`m.genkei or surface` on line 63. -/
def pyOr (x : Option String) (y : String) : String :=
  match x with
  | none => y
  | some s => if s = "" then y else s

/-- The slice of spaCy's `Token` that the adapter reads or writes:
the token's text, its `whitespace_`/`spaces` flag, `lemma_`, `tag_`,
and the custom extension slot registered under `KEY_FSTRING`
(`none` while unset, `some s` after `token._.set(key, s)`). -/
structure SToken where
  text : String
  spaceAfter : Bool
  lemma_ : String
  tag : String
  fstring : Option String
deriving DecidableEq, Repr

/-- The slice of spaCy's `Doc` the adapter uses: the token sequence. -/
structure Doc where
  tokens : List SToken
deriving DecidableEq, Repr

/-- Embedding of `Doc(self.vocab, words=words, spaces=spaces)`
(line 48): one token per word, paired positionally with its
trailing-space flag; `lemma_`, `tag_` and the extension slot start
out unset. -/
def Doc.mkDoc (words : List String) (spaces : List Bool) : Doc :=
  { tokens := (words.zip spaces).map fun ws =>
      { text := ws.1, spaceAfter := ws.2, lemma_ := "", tag := "", fstring := none } }

/-- The tokenizer adapter (class `Tokenizer`, lines 17-65).  `analysis`
stands for `self.tokenizer.analysis(text).mrph_list()` — the external
analyzer handle created in `__init__` — and `preprocessor` for the
optional preprocessing function stored on line 39.  The `vocab` field
of the Python class is owned by the host framework and never inspected
by the adapter, so it is omitted. -/
structure Tokenizer where
  analysis : String → List Morpheme
  preprocessor : Option (String → String)

/-- Embedding of `Tokenizer.detailed_tokens` (lines 55-65): map every
morpheme to a `ShortUnitWord`, composing the part-of-speech tag as
`m.hinsi + "/" + m.bunrui` and the lemma as `m.genkei or surface`. -/
def Tokenizer.detailed_tokens (t : Tokenizer) (text : String) : List ShortUnitWord :=
  (t.analysis text).map fun m =>
    let surface := m.midasi
    let pos := m.hinsi ++ "/" ++ m.bunrui
    let lemma_ := pyOr m.genkei surface
    ShortUnitWord.mk surface lemma_ pos m.fstring

/-- Lines 43-44 of `Tokenizer.__call__`: apply the preprocessor when
one was configured, otherwise keep the text unchanged. -/
def Tokenizer.applyPre (t : Tokenizer) (text : String) : String :=
  match t.preprocessor with
  | some p => p text
  | none => text

/-- Embedding of `Tokenizer.__call__` (lines 41-53): preprocess,
tokenize, build a `Doc` from the surfaces with all space flags
`False`, then walk the document tokens and the `ShortUnitWord`s in
lockstep assigning `lemma_`, `tag_` and the extension slot. -/
def Tokenizer.call (t : Tokenizer) (text : String) : Doc :=
  let text := t.applyPre text
  let dtokens := t.detailed_tokens text
  let words := dtokens.map fun x => x.surface
  let spaces := List.replicate words.length false
  let doc := Doc.mkDoc words spaces
  { tokens := (doc.tokens.zip dtokens).map fun td =>
      { td.1 with lemma_ := td.2.lemma_, tag := td.2.pos, fstring := some td.2.fstring } }

/-- The fully populated token produced for one `ShortUnitWord`:
surface text, no trailing space, lemma, tag and the detail string. -/
def tokenOf (d : ShortUnitWord) : SToken :=
  { text := d.surface, spaceAfter := false, lemma_ := d.lemma_,
    tag := d.pos, fstring := some d.fstring }

theorem zip_replicate_false (l : List String) :
    l.zip (List.replicate l.length false) = l.map fun w => (w, false) := by
  induction l with
  | nil => rfl
  | cons h t ih => simp [List.replicate, ih]

/-- Key structural lemma: the document returned by `Tokenizer.call` is
exactly the pointwise image of `detailed_tokens` of the preprocessed
text under `tokenOf`. -/
theorem Tokenizer.call_tokens (t : Tokenizer) (text : String) :
    (t.call text).tokens = (t.detailed_tokens (t.applyPre text)).map tokenOf := by
  simp only [Tokenizer.call, Doc.mkDoc, zip_replicate_false, List.map_map]
  generalize t.detailed_tokens (t.applyPre text) = l
  induction l with
  | nil => rfl
  | cons h s ih => simp_all [tokenOf]

/-- Modelled from the spec: the key of the detail-string custom token
attribute, imported as `KEY_FSTRING` from `bedoner.consts` (a module
not present under src/); the spec calls it the "detail string"
attribute.  Its exact value is irrelevant to the claims. -/
def KEY_FSTRING : String := "fstring"

/-- The host framework's global registry of custom token attributes:
an association of attribute name to registered default value (the
default used here, line 38, is the Python boolean `False`). -/
abbrev ExtRegistry := List (String × Bool)

/-- Embedding of spaCy's `Token.set_extension(name, default=d, force=True)`:
with `force=True` the attribute is (re-)registered unconditionally,
overwriting any previous registration under the same name. -/
def set_extension_force (name : String) (d : Bool) (reg : ExtRegistry) : ExtRegistry :=
  (name, d) :: reg.filter fun p => p.1 != name

/-- The effect of `Tokenizer.__init__` (line 38) on the global
extension registry: `Token.set_extension(self.key_fstring, default=False,
force=True)`, state-passing style. -/
def Tokenizer.initExtension (reg : ExtRegistry) : ExtRegistry :=
  set_extension_force KEY_FSTRING false reg

/-- Embedding of line 20:
`serialization_fields = ["preprocessor", "juman_kwargs"]` — the fields
the `SerializationMixin` round-trips for the adapter. -/
def Tokenizer.serialization_fields : List String :=
  ["preprocessor", "juman_kwargs"]

/-- The `Japanese` language variant (lines 85-89), reduced to the
construction-time configuration relevant to pickling: the analyzer
constructor arguments and the preprocessing function that
`Defaults.create_tokenizer` would receive.  A `Japanese` built with no
arguments carries neither. -/
structure Japanese where
  juman_kwargs : Option (List (String × String))
  preprocessor : Option (String → String)

/-- The `Japanese` class applied to an empty argument tuple: the
default-configured language variant. -/
def Japanese.ofNoArgs : Unit → Japanese := fun _ => { juman_kwargs := none, preprocessor := none }

/-- Embedding of `pickle_japanese` (lines 92-93): the hook returns the
`Japanese` class together with an empty argument tuple, regardless of
the instance being pickled. -/
def pickle_japanese (_instance : Japanese) : (Unit → Japanese) × Unit :=
  (Japanese.ofNoArgs, ())

/-- What unpickling does with a `copy_reg.pickle` reduction value:
apply the returned callable to the returned argument tuple. -/
def copyRegUnpickle (r : (Unit → Japanese) × Unit) : Japanese :=
  r.1 r.2

/-- Exception-aware variant of the adapter, for the error-propagation
claim: the analyzer call and the preprocessor may raise (return
`Except.error`), modelling Python exceptions. -/
structure TokenizerE (ε : Type) where
  analysis : String → Except ε (List Morpheme)
  preprocessor : Option (String → Except ε String)

/-- `Tokenizer.detailed_tokens` factored over an already-obtained
morpheme list (the loop of lines 58-64). -/
def detailedOf (ml : List Morpheme) : List ShortUnitWord :=
  ml.map fun m =>
    let surface := m.midasi
    let pos := m.hinsi ++ "/" ++ m.bunrui
    let lemma_ := pyOr m.genkei surface
    ShortUnitWord.mk surface lemma_ pos m.fstring

/-- The document-building tail of `Tokenizer.__call__` (lines 46-53)
over an already-obtained `ShortUnitWord` list. -/
def buildDoc (dtokens : List ShortUnitWord) : Doc :=
  let words := dtokens.map fun x => x.surface
  let spaces := List.replicate words.length false
  let doc := Doc.mkDoc words spaces
  { tokens := (doc.tokens.zip dtokens).map fun td =>
      { td.1 with lemma_ := td.2.lemma_, tag := td.2.pos, fstring := some td.2.fstring } }

/-- `Tokenizer.__call__` with explicit exception propagation: each
step either succeeds or passes the raised error through unchanged —
the adapter installs no handler of its own. -/
def TokenizerE.callE {ε : Type} (t : TokenizerE ε) (text : String) : Except ε Doc := do
  let text ← match t.preprocessor with
    | some p => p text
    | none => pure text
  let ml ← t.analysis text
  pure (buildDoc (detailedOf ml))

/-- `Tokenizer.__init__` (lines 22-39) with explicit exception
propagation from the analyzer constructor: `mkJuman` stands for
`Juman(**juman_kwargs) if juman_kwargs else Juman()` (line 36), which
may raise; construction of the adapter fails with exactly that
error. -/
def TokenizerE.initE {ε : Type} (mkJuman : Except ε (String → Except ε (List Morpheme)))
    (pre : Option (String → Except ε String)) : Except ε (TokenizerE ε) := do
  let a ← mkJuman
  pure { analysis := a, preprocessor := pre }

/-- A concrete tokenizer used to instantiate the hypothesis-bearing
theorems: a fixed three-morpheme analyzer (dictionary form present,
absent, and empty, respectively) and no preprocessor. -/
def tkNone : Tokenizer :=
  { analysis := fun _ =>
      [Morpheme.mk "desu" "hanteisi" "*" (some "da") "F1",
       Morpheme.mk "tokyo" "meisi" "timei" none "F2",
       Morpheme.mk "ya" "zyosi" "*" (some "") "F3"],
    preprocessor := none }

/-- C1: for every input text, the document returned by `Tokenizer.call`
contains exactly one token per morphological unit the analyzer reports
for the (possibly preprocessed) text, and the tokens carry the units'
surface forms in the analyzer's order. -/
theorem call_one_token_per_morpheme (t : Tokenizer) (text : String) :
    (t.call text).tokens.length = (t.analysis (t.applyPre text)).length ∧
    (t.call text).tokens.map SToken.text
      = (t.analysis (t.applyPre text)).map Morpheme.midasi := by
  refine ⟨?_, ?_⟩ <;>
    simp [Tokenizer.call_tokens, Tokenizer.detailed_tokens, List.map_map, tokenOf]

/-- C2: each token's lemma is the dictionary form (genkei) the analyzer
reported for the corresponding unit, and is the unit's surface form
when the analyzer reports no dictionary form. -/
theorem call_lemma_is_genkei_or_surface (t : Tokenizer) (text : String) (i : Nat)
    (m : Morpheme) (hm : (t.analysis (t.applyPre text))[i]? = some m) :
    (m.genkei = none → ((t.call text).tokens.map SToken.lemma_)[i]? = some m.midasi) ∧
    (∀ g, m.genkei = some g → g ≠ "" →
      ((t.call text).tokens.map SToken.lemma_)[i]? = some g) := by
  have h : ((t.call text).tokens.map SToken.lemma_)[i]? = some (pyOr m.genkei m.midasi) := by
    simp [Tokenizer.call_tokens, Tokenizer.detailed_tokens, List.map_map,
      List.getElem?_map, hm, tokenOf]
  constructor
  · intro hg
    rw [h, hg]
    rfl
  · intro g hg hne
    rw [h, hg]
    simp [pyOr, hne]

/-- C2 witness: on `tkNone`, token 0 takes the reported dictionary
form and token 1 falls back to its surface form. -/
theorem call_lemma_is_genkei_or_surface_witness :
    ((tkNone.call "x").tokens.map SToken.lemma_)[0]? = some "da" ∧
    ((tkNone.call "x").tokens.map SToken.lemma_)[1]? = some "tokyo" :=
  ⟨(call_lemma_is_genkei_or_surface tkNone "x" 0
      (Morpheme.mk "desu" "hanteisi" "*" (some "da") "F1") rfl).2 "da" rfl (by decide),
   (call_lemma_is_genkei_or_surface tkNone "x" 1
      (Morpheme.mk "tokyo" "meisi" "timei" none "F2") rfl).1 rfl⟩

/-- C3: each token's part-of-speech tag is exactly the analyzer's major
category, the separator "/", and the minor category, concatenated. -/
theorem call_tag_is_hinsi_slash_bunrui (t : Tokenizer) (text : String) :
    (t.call text).tokens.map SToken.tag
      = (t.analysis (t.applyPre text)).map fun m => m.hinsi ++ "/" ++ m.bunrui := by
  simp [Tokenizer.call_tokens, Tokenizer.detailed_tokens, List.map_map, tokenOf]

/-- C4: each token's detail-string custom attribute holds the
analyzer's raw per-unit annotation string unaltered. -/
theorem call_fstring_verbatim (t : Tokenizer) (text : String) :
    (t.call text).tokens.map SToken.fstring
      = (t.analysis (t.applyPre text)).map fun m => some m.fstring := by
  simp [Tokenizer.call_tokens, Tokenizer.detailed_tokens, List.map_map, tokenOf]

/-- C5: every token of the returned document is marked as not followed
by a space, so concatenating the token texts with no separator yields
the concatenation of the analyzer's surface strings. -/
theorem call_no_spaces (t : Tokenizer) (text : String) :
    (t.call text).tokens.map SToken.spaceAfter
      = List.replicate (t.call text).tokens.length false ∧
    String.join ((t.call text).tokens.map SToken.text)
      = String.join ((t.analysis (t.applyPre text)).map Morpheme.midasi) := by
  constructor
  · simp [Tokenizer.call_tokens, List.map_map, tokenOf, List.eq_replicate_iff]
  · have h : (t.call text).tokens.map SToken.text
        = (t.analysis (t.applyPre text)).map Morpheme.midasi := by
      simp [Tokenizer.call_tokens, Tokenizer.detailed_tokens, List.map_map, tokenOf]
    rw [h]

/-- C6: with a preprocessor configured, the adapter behaves exactly as
the preprocessor-free adapter applied to the preprocessed text — the
analyzer sees the preprocessed text; with no preprocessor, the
analyzer is invoked on the original text unchanged (the tokens carry
the surfaces of its morphemes for that very text). -/
theorem call_uses_preprocessed_text (a : String → List Morpheme)
    (p : String → String) (text : String) :
    (Tokenizer.mk a (some p)).call text = (Tokenizer.mk a none).call (p text) ∧
    ((Tokenizer.mk a none).call text).tokens.map SToken.text
      = (a text).map Morpheme.midasi := by
  constructor
  · rfl
  · simp [Tokenizer.call_tokens, Tokenizer.detailed_tokens, Tokenizer.applyPre,
      List.map_map, tokenOf]

/-- C7: the registered pickle hook reduces any `Japanese` instance to
the class with an empty argument tuple, so unpickling recreates the
language variant with no construction-time configuration; the
adapter's own declared serialization fields are exactly the
preprocessor and the analyzer construction arguments. -/
theorem pickle_japanese_drops_config (j : Japanese) :
    (pickle_japanese j).2 = () ∧
    copyRegUnpickle (pickle_japanese j)
      = { juman_kwargs := none, preprocessor := none } ∧
    Tokenizer.serialization_fields = ["preprocessor", "juman_kwargs"] :=
  ⟨rfl, rfl, rfl⟩

/-- C8: an error raised by the preprocessor, by the analyzer (with or
without a preprocessor), or by the analyzer constructor during adapter
construction is returned to the caller exactly as raised, with no
wrapping or recovery. -/
theorem errors_propagate_unwrapped {ε : Type} (e : ε)
    (a : String → Except ε (List Morpheme)) (p : String → Except ε String)
    (text ptext : String)
    (mkJuman : Except ε (String → Except ε (List Morpheme)))
    (pre : Option (String → Except ε String)) :
    (p text = Except.error e →
      (TokenizerE.mk a (some p)).callE text = Except.error e) ∧
    (a text = Except.error e →
      (TokenizerE.mk a none).callE text = Except.error e) ∧
    (p text = Except.ok ptext → a ptext = Except.error e →
      (TokenizerE.mk a (some p)).callE text = Except.error e) ∧
    (mkJuman = Except.error e → TokenizerE.initE mkJuman pre = Except.error e) := by
  refine ⟨fun h => ?_, fun h => ?_, fun h1 h2 => ?_, fun h => ?_⟩
  · simp [TokenizerE.callE, h, Bind.bind, Except.bind]
  · simp [TokenizerE.callE, h, Bind.bind, Except.bind, Pure.pure, Except.pure]
  · simp [TokenizerE.callE, h1, h2, Bind.bind, Except.bind, Functor.map, Except.map]
  · simp [TokenizerE.initE, h, Bind.bind, Except.bind]

/-- C8 witness: concrete failing preprocessor, analyzer (both adapter
configurations) and analyzer constructor, each surfacing the very
error value raised. -/
theorem errors_propagate_unwrapped_witness :
    (TokenizerE.mk (fun _ => Except.ok ([] : List Morpheme))
        (some fun _ => Except.error "boom")).callE "x" = Except.error "boom" ∧
    (TokenizerE.mk (fun _ => (Except.error "boom" : Except String (List Morpheme)))
        none).callE "x" = Except.error "boom" ∧
    (TokenizerE.mk (fun _ => (Except.error "boom" : Except String (List Morpheme)))
        (some fun s => Except.ok s)).callE "x" = Except.error "boom" ∧
    TokenizerE.initE (Except.error "boom") none
      = (Except.error "boom" : Except String (TokenizerE String)) :=
  ⟨(errors_propagate_unwrapped "boom" (fun _ => Except.ok []) (fun _ => Except.error "boom")
      "x" "x" (Except.error "boom") none).1 rfl,
   (errors_propagate_unwrapped "boom" (fun _ => Except.error "boom") (fun s => Except.ok s)
      "x" "x" (Except.error "boom") none).2.1 rfl,
   (errors_propagate_unwrapped "boom" (fun _ => Except.error "boom") (fun s => Except.ok s)
      "x" "x" (Except.error "boom") none).2.2.1 rfl rfl,
   (errors_propagate_unwrapped "boom" (fun _ => Except.error "boom") (fun s => Except.ok s)
      "x" "x" (Except.error "boom") none).2.2.2 rfl⟩

/-- C9: constructing the adapter registers the detail-string custom
attribute on the token type in the global registry, and a second
construction (re-registration with force-overwrite) leaves the
registry exactly as after the first: registration is idempotent. -/
theorem init_extension_idempotent (reg : ExtRegistry) :
    (KEY_FSTRING, false) ∈ Tokenizer.initExtension reg ∧
    Tokenizer.initExtension (Tokenizer.initExtension reg)
      = Tokenizer.initExtension reg := by
  refine ⟨List.mem_cons_self _ _, ?_⟩
  simp [Tokenizer.initExtension, set_extension_force, List.filter_filter]

/-- C10: a morphological unit whose reported dictionary form is the
empty string (not merely absent) also gets its surface form as the
token's lemma — the fallback fires on any falsy dictionary form. -/
theorem empty_genkei_falls_back_to_surface (t : Tokenizer) (text : String) (i : Nat)
    (m : Morpheme) (hm : (t.analysis (t.applyPre text))[i]? = some m)
    (hg : m.genkei = some "") :
    ((t.call text).tokens.map SToken.lemma_)[i]? = some m.midasi := by
  simp [Tokenizer.call_tokens, Tokenizer.detailed_tokens, List.map_map,
    List.getElem?_map, hm, tokenOf, pyOr, hg]

/-- C10 witness: on `tkNone`, unit 2 reports the empty dictionary form
and its token's lemma is the surface form. -/
theorem empty_genkei_falls_back_to_surface_witness :
    ((tkNone.call "x").tokens.map SToken.lemma_)[2]? = some "ya" :=
  empty_genkei_falls_back_to_surface tkNone "x" 2
    (Morpheme.mk "ya" "zyosi" "*" (some "") "F3") rfl rfl

end Bedoner
